import Mathlib

/-!
# Verification of the comp-recommendation core

A shallow embedding, in Lean 4, of the similarity-scoring and ranking core of
the CompRecommendation backend (directory backend/app/ml of the repository),
together with theorems settling the frozen claims about it.

Modelling conventions, applied uniformly:

* Python floats are modelled as rationals; all arithmetic in the scored
  paths is exact field arithmetic, so order and equality facts transfer.
* Python datetimes are modelled as integer day numbers; the wall clock
  (datetime.now) is an explicit parameter named now, and the library call
  (now - d).days becomes now - d.
* Python dicts with .get defaults become records with Option fields; the
  Python idiom x.get(k, d) becomes (field.getD d) and the idiom
  (x.get(k) or d) - which also maps a stored 0 to d - becomes pyOrQ.
* Transcendental library calls (math.sin and friends inside the haversine
  distance, np.sqrt) are irrational-valued and are passed in as explicit
  function parameters; no claim depends on their values.
* Calls into scikit-learn / FAISS (scaler.transform, predict_proba, the
  FAISS index search) are opaque external components and appear as function
  fields of the engine state; exceptions they may throw are modelled by
  Except results.
* A Python function that can raise is embedded with an Except codomain; a
  raise statement becomes Except.error carrying the message from the source.
-/

/-- Python truthiness for a possibly missing number: the expression
(d.get(k) or default) yields the default both when the key is missing /
None and when the stored value is 0 (0 is falsy in Python). -/
def pyOrQ (x : Option ℚ) (d : ℚ) : ℚ :=
  match x with
  | none => d
  | some v => if v = 0 then d else v

/-- Python list slicing l[:k] for an arbitrary (possibly negative) int k:
for k >= 0 it keeps the first k elements, for k < 0 it drops the last |k|. -/
def pySlice (k : ℤ) (l : List α) : List α :=
  if 0 ≤ k then l.take k.toNat else l.take (l.length - (-k).toNat)

/-! ## Typed schema (backend/app/schemas/property.py)

The pydantic models used by the strict pipeline in
backend/app/ml/recommendation_engine.py.  Numeric fields (int / float in
the source) are all ℚ; enum-valued fields are strings, matching the
str-Enum classes of the source.  The engine code additionally reads
property_type, condition and quality attributes from these records, so the
embedding carries them as fields. -/

structure SubjectProperty where
  id : String
  address : String
  structure_type : String
  property_type : String
  condition : String
  quality : String
  gla : ℚ
  lot_size : ℚ
  bedrooms : ℚ
  bathrooms : ℚ
  year_built : ℚ
  latitude : ℚ
  longitude : ℚ
  estimated_value : Option ℚ
deriving DecidableEq, Repr

structure Property where
  id : String
  address : String
  structure_type : String
  property_type : String
  condition : String
  quality : String
  gla : ℚ
  lot_size : ℚ
  bedrooms : ℚ
  bathrooms : ℚ
  year_built : ℚ
  latitude : ℚ
  longitude : ℚ
  sale_date : Option ℤ
  sale_price : Option ℚ
deriving DecidableEq, Repr

structure Adjustments where
  gla_adjustment : ℚ := 0
  lot_size_adjustment : ℚ := 0
  condition_adjustment : ℚ := 0
  location_adjustment : ℚ := 0
  time_adjustment : ℚ := 0
deriving DecidableEq, Repr

structure Explanation where
  factor : String
  description : String
  weight : ℚ
  contribution : ℚ
deriving DecidableEq, Repr

structure CompProperty where
  base : Property
  similarity_score : ℚ
  distance_from_subject : ℚ
  days_since_sale : Option ℤ
  adjustments : Adjustments
deriving DecidableEq, Repr

structure CompRecommendation where
  property : CompProperty
  rank : ℤ
  overall_score : ℚ
  explanations : List Explanation
  reasoning : String
deriving DecidableEq, Repr

/-! ## Rule-based scorer of the strict pipeline
(PropertyRecommendationEngine._calculate_similarity_score) -/

/-- backend/app/ml/recommendation_engine.py, _calculate_similarity_score:
weighted deductions from 100, clamped into [0, 100] on return. -/
def calculate_similarity_score (subject : SubjectProperty) (comp : Property) : ℚ :=
  let score : ℚ := 100
  let score := if subject.gla > 0 then
      score - |comp.gla - subject.gla| / subject.gla * 30 else score
  let score := if subject.lot_size > 0 then
      score - |comp.lot_size - subject.lot_size| / subject.lot_size * 20 else score
  let score := score - |comp.bedrooms - subject.bedrooms| * 5
  let score := score - |comp.bathrooms - subject.bathrooms| * 7.5
  let score := score - min (|comp.year_built - subject.year_built| / 10) 10
  let score := if comp.property_type ≠ subject.property_type then score - 10 else score
  max 0 (min 100 score)

/-! ## Dict-based property records (enhanced / fast / embedding paths)

The enhanced engine, the fast engine and the embedding generator all pass
around loosely-typed dicts; PropD is the common record of every key those
code paths read, each field optional exactly because dict.get is used with
a default everywhere. -/

structure PropD where
  id : Option String := none
  address : Option String := none
  property_type : Option String := none
  structure_type : Option String := none
  condition : Option String := none
  quality : Option String := none
  neighborhood : Option String := none
  gla : Option ℚ := none
  lot_size : Option ℚ := none
  bedrooms : Option ℚ := none
  bathrooms : Option ℚ := none
  year_built : Option ℚ := none
  garage_spaces : Option ℚ := none
  latitude : Option ℚ := none
  longitude : Option ℚ := none
  sale_price : Option ℚ := none
  estimated_value : Option ℚ := none
  features : List String := []
  sale_date : Option ℤ := none
  appraisal_date : Option ℤ := none
deriving DecidableEq, Repr

/-- The condition_map dict literal of the enhanced engine
({Poor 1, Fair 2, Average 3, Good 4, Excellent 5}) together with the .get
default 3 used at every lookup site. -/
def condition_map (s : String) : ℚ :=
  if s = "Poor" then 1
  else if s = "Fair" then 2
  else if s = "Average" then 3
  else if s = "Good" then 4
  else if s = "Excellent" then 5
  else 3

/-- backend/app/ml/enhanced_recommendation_engine.py, _rule_based_similarity:
additive weighted score, clamped into [0, 100] on return.  now is the
integer day number of datetime.now(); an unparsable or absent sale_date
(the except branch of the source) skips the recency term. -/
def rule_based_similarity (now : ℤ) (subject candidate : PropD) : ℚ :=
  let score : ℚ := 0
  let gla_diff := |subject.gla.getD 0 - candidate.gla.getD 0| / max (subject.gla.getD 1) 1
  let score := score + (1 - min gla_diff 1) * 30
  let score := if subject.neighborhood = candidate.neighborhood then score + 25 else score
  let score := if subject.property_type = candidate.property_type then score + 20 else score
  let bed_diff := |pyOrQ subject.bedrooms 0 - pyOrQ candidate.bedrooms 0|
  let bath_diff := |pyOrQ subject.bathrooms 0 - pyOrQ candidate.bathrooms 0|
  let room_score := max 0 (15 - (bed_diff + bath_diff) * 3)
  let score := score + room_score
  let score :=
    match candidate.sale_date with
    | some d =>
        let days_ago : ℚ := ((now - d : ℤ) : ℚ)
        score + max 0 (10 - days_ago / 36.5)
    | none => score
  min 100 (max 0 score)

/-! ## Theorems for claims C2 and C10 -/

/-- C2: for every valid (subject, candidate) pair, each rule-based scorer
returns a score in the closed interval [0, 100]: the raw weighted total is
clamped to [0, 100] before being returned, in both
PropertyRecommendationEngine._calculate_similarity_score and
EnhancedRecommendationEngine._rule_based_similarity. -/
theorem rule_based_scores_bounded (subject : SubjectProperty) (comp : Property)
    (now : ℤ) (s c : PropD) :
    (0 ≤ calculate_similarity_score subject comp ∧
      calculate_similarity_score subject comp ≤ 100) ∧
    (0 ≤ rule_based_similarity now s c ∧ rule_based_similarity now s c ≤ 100) := by
  refine ⟨⟨le_max_left _ _, ?_⟩, ⟨?_, min_le_left _ _⟩⟩
  · exact max_le (by norm_num) (min_le_left _ _)
  · exact le_min (by norm_num) (le_max_left _ _)

/-- C10: the rule-based similarity score of the strict pipeline depends only
on gla, lot_size, bedrooms, bathrooms, year_built and property type of the
pair; two candidates agreeing on those six fields receive the same score
from _calculate_similarity_score no matter how their latitude, longitude,
sale_date, sale_price or address differ. -/
theorem calculate_similarity_score_ignores_geo_and_sale
    (subject : SubjectProperty) (c1 c2 : Property)
    (hgla : c1.gla = c2.gla) (hlot : c1.lot_size = c2.lot_size)
    (hbed : c1.bedrooms = c2.bedrooms) (hbath : c1.bathrooms = c2.bathrooms)
    (hyear : c1.year_built = c2.year_built)
    (htype : c1.property_type = c2.property_type) :
    calculate_similarity_score subject c1 = calculate_similarity_score subject c2 := by
  unfold calculate_similarity_score
  rw [hgla, hlot, hbed, hbath, hyear, htype]

/-- Witness for C10: a concrete pair of candidates agreeing on the six
scored fields but placed at different coordinates, with different sale
data and addresses, receive equal scores. -/
theorem calculate_similarity_score_ignores_geo_and_sale_witness :
    calculate_similarity_score
      { id := "S", address := "1 Main St", structure_type := "Detached",
        property_type := "Detached", condition := "Average", quality := "Average",
        gla := 2000, lot_size := 5000, bedrooms := 3, bathrooms := 2,
        year_built := 2000, latitude := 44.23, longitude := -76.48,
        estimated_value := some 400000 }
      { id := "A", address := "2 Elm St", structure_type := "Detached",
        property_type := "Detached", condition := "Average", quality := "Average",
        gla := 1800, lot_size := 4000, bedrooms := 3, bathrooms := 2,
        year_built := 1995, latitude := 44.23, longitude := -76.48,
        sale_date := some 20000, sale_price := some 350000 } =
    calculate_similarity_score
      { id := "S", address := "1 Main St", structure_type := "Detached",
        property_type := "Detached", condition := "Average", quality := "Average",
        gla := 2000, lot_size := 5000, bedrooms := 3, bathrooms := 2,
        year_built := 2000, latitude := 44.23, longitude := -76.48,
        estimated_value := some 400000 }
      { id := "B", address := "99 Far Away Rd", structure_type := "Detached",
        property_type := "Detached", condition := "Average", quality := "Average",
        gla := 1800, lot_size := 4000, bedrooms := 3, bathrooms := 2,
        year_built := 1995, latitude := 10.0, longitude := 20.0,
        sale_date := none, sale_price := none } :=
  calculate_similarity_score_ignores_geo_and_sale _ _ _ rfl rfl rfl rfl rfl rfl

/-! ## Enhanced engine (backend/app/ml/enhanced_recommendation_engine.py)

The trained similarity model itself (a scikit-learn RandomForestClassifier
plus a fitted StandardScaler) is an opaque external component; the engine
state carries it as the single function infer, mapping an extracted feature
vector to either a selection probability or a raised exception.  The
feature extraction, the fallback scorer and all control flow around the
model are embedded from the source. -/

/-- EnhancedRecommendationEngine.extract_features: the 16-entry pairwise
feature vector.  sqrtQ stands for np.sqrt (irrational, hence a parameter);
the try/except around the two datetime.fromisoformat calls becomes a match
on the two optional day-number fields, the except branch contributing the
default entries 365 and 0. -/
def extract_features (sqrtQ : ℚ → ℚ) (subject candidate : PropD) : List ℚ :=
  let gla_diff := |subject.gla.getD 0 - candidate.gla.getD 0| / max (subject.gla.getD 1) 1
  let lot_diff := |subject.lot_size.getD 0 - candidate.lot_size.getD 0| /
    max (subject.lot_size.getD 1) 1
  let bed_diff := |pyOrQ subject.bedrooms 0 - pyOrQ candidate.bedrooms 0|
  let bath_diff := |pyOrQ subject.bathrooms 0 - pyOrQ candidate.bathrooms 0|
  let year_diff := |pyOrQ subject.year_built 0 - pyOrQ candidate.year_built 0|
  let lat_diff := |pyOrQ subject.latitude 0 - pyOrQ candidate.latitude 0|
  let lng_diff := |pyOrQ subject.longitude 0 - pyOrQ candidate.longitude 0|
  let geo_distance := sqrtQ (lat_diff ^ 2 + lng_diff ^ 2)
  let same_neighborhood : ℚ := if subject.neighborhood = candidate.neighborhood then 1 else 0
  let same_property_type : ℚ := if subject.property_type = candidate.property_type then 1 else 0
  let same_structure_type : ℚ :=
    if subject.structure_type = candidate.structure_type then 1 else 0
  let condition_diff := |condition_map (subject.condition.getD "Average") -
    condition_map (candidate.condition.getD "Average")|
  let quality_diff := |condition_map (subject.quality.getD "Average") -
    condition_map (candidate.quality.getD "Average")|
  let subject_features := subject.features.toFinset
  let candidate_features := candidate.features.toFinset
  let feature_overlap := (subject_features ∩ candidate_features).card
  let feature_total := (subject_features ∪ candidate_features).card
  let feature_similarity : ℚ := (feature_overlap : ℚ) / max (feature_total : ℚ) 1
  let time_features : List ℚ :=
    match candidate.sale_date, subject.appraisal_date with
    | some sd, some ad =>
        let days_since_sale : ℚ := ((ad - sd : ℤ) : ℚ)
        [days_since_sale, max 0 (1 - days_since_sale / 365)]
    | _, _ => [365, 0]
  let candidate_price := pyOrQ candidate.sale_price 0
  let subject_value := pyOrQ subject.estimated_value 0
  let price_ratio : ℚ := if subject_value > 0 then candidate_price / subject_value else 1
  let candidate_gla := pyOrQ candidate.gla 1
  let price_per_sqft : ℚ := if candidate_gla > 0 then candidate_price / candidate_gla else 0
  [gla_diff, lot_diff, bed_diff, bath_diff, year_diff, geo_distance,
    same_neighborhood, same_property_type, same_structure_type,
    condition_diff, quality_diff, feature_similarity] ++
  time_features ++ [price_ratio, price_per_sqft]

/-- State of EnhancedRecommendationEngine: the trained flag together with
the opaque scaler-and-classifier pipeline.  infer receives the extracted
feature vector and abstracts scaler.transform followed by
predict_proba()[0][1]; an exception anywhere in that pipeline is an
Except.error. -/
structure EnhancedEngine where
  is_trained : Bool
  model_version : String := "2.0.0"
  infer : List ℚ → Except String ℚ

/-- EnhancedRecommendationEngine.predict_similarity: use the trained model
when available, multiply the class-1 probability by 100; on an untrained
model or any exception during extraction/scaling/prediction, delegate to
the rule-based scorer. -/
def predict_similarity (sqrtQ : ℚ → ℚ) (now : ℤ) (eng : EnhancedEngine)
    (subject candidate : PropD) : ℚ :=
  if eng.is_trained = false then rule_based_similarity now subject candidate
  else
    match eng.infer (extract_features sqrtQ subject candidate) with
    | .ok prob => prob * 100
    | .error _ => rule_based_similarity now subject candidate

/-- The typed errors prepare_training_data / train can raise. -/
inductive TrainError where
  | fileNotFound (msg : String)
  | valueError (msg : String)
deriving DecidableEq, Repr

/-- One record of the historical appraisals dataset, as read by
prepare_training_data. -/
structure Appraisal where
  subject_property : PropD := {}
  candidate_properties : List PropD := []
  selected_comps : List PropD := []

/-- EnhancedRecommendationEngine.prepare_training_data: the filesystem is a
partial map from paths to parsed datasets; a missing file is re-raised as a
FileNotFoundError with the production message, and otherwise every
(subject, candidate) pair is featurized and labelled by membership of the
candidate id in the selected-comp id set.  (The per-candidate try/except of
the source is unreachable here because the embedded extractor is total.) -/
def prepare_training_data (sqrtQ : ℚ → ℚ) (fs : String → Option (List Appraisal))
    (dataset_path : String) : Except TrainError (List (List ℚ) × List ℕ) :=
  match fs dataset_path with
  | none => .error (.fileNotFound
      ("Production dataset " ++ dataset_path ++ " is required for ML training"))
  | some dataset =>
      let pairs := dataset.flatMap (fun a =>
        a.candidate_properties.map (fun c =>
          (extract_features sqrtQ a.subject_property c,
            if (a.selected_comps.map (fun comp => comp.id)).contains c.id then 1 else 0)))
      .ok (pairs.map Prod.fst, pairs.map Prod.snd)

/-! ## Theorems for claims C1 and C9 -/

/-- C1: for every (subject, candidate) pair, if the trained flag is false or
inference raises, predict_similarity returns exactly the value of
_rule_based_similarity on the same pair; a prediction failure never aborts
the request (the function totally returns the fallback value). -/
theorem predict_similarity_falls_back (sqrtQ : ℚ → ℚ) (now : ℤ)
    (eng : EnhancedEngine) (subject candidate : PropD)
    (h : eng.is_trained = false ∨
      ∃ e, eng.infer (extract_features sqrtQ subject candidate) = .error e) :
    predict_similarity sqrtQ now eng subject candidate =
      rule_based_similarity now subject candidate := by
  unfold predict_similarity
  rcases h with h | ⟨e, h⟩
  · simp [h]
  · cases ht : eng.is_trained
    · simp [ht]
    · simp [ht, h]

/-- Witness for C1: an untrained engine, and a trained engine whose
inference pipeline always raises, both return the rule-based value on a
concrete pair. -/
theorem predict_similarity_falls_back_witness :
    (predict_similarity (fun _ => 0) 20100
        { is_trained := false, infer := fun _ => .ok (1/2) }
        { gla := some 2000, neighborhood := some "K" }
        { gla := some 1900, neighborhood := some "K", sale_date := some 20000 } =
      rule_based_similarity 20100
        { gla := some 2000, neighborhood := some "K" }
        { gla := some 1900, neighborhood := some "K", sale_date := some 20000 }) ∧
    (predict_similarity (fun _ => 0) 20100
        { is_trained := true, infer := fun _ => .error "scaler artifact corrupt" }
        { gla := some 2000 } { gla := some 1900 } =
      rule_based_similarity 20100 { gla := some 2000 } { gla := some 1900 }) :=
  ⟨predict_similarity_falls_back _ _ _ _ _ (Or.inl rfl),
    predict_similarity_falls_back _ _ _ _ _ (Or.inr ⟨_, rfl⟩)⟩

/-- C9: training against a dataset path the filesystem does not contain
fails with the typed FileNotFoundError carrying the descriptive production
message, and no synthetic or sample data is substituted (the result is the
error, not data). -/
theorem prepare_training_data_missing_file (sqrtQ : ℚ → ℚ)
    (fs : String → Option (List Appraisal)) (dataset_path : String)
    (h : fs dataset_path = none) :
    prepare_training_data sqrtQ fs dataset_path = .error (.fileNotFound
      ("Production dataset " ++ dataset_path ++ " is required for ML training")) := by
  unfold prepare_training_data
  rw [h]

/-- Witness for C9: on an empty filesystem the standard dataset path yields
exactly the typed missing-file error. -/
theorem prepare_training_data_missing_file_witness :
    prepare_training_data (fun _ => 0) (fun _ => none) "data/appraisals_dataset.json" =
      .error (.fileNotFound
        "Production dataset data/appraisals_dataset.json is required for ML training") :=
  prepare_training_data_missing_file _ _ _ rfl

/-! ## Strict ranking pipeline (backend/app/ml/recommendation_engine.py)

get_recommendations and its helpers.  The great-circle distance
(app/utils/similarity.py, calculate_distance) evaluates sines and cosines,
so it enters the embedding as the explicit function parameter dist; the
wall clock enters as now, and calculate_days_since(d) is now - d.  Number
formatting inside explanation / reasoning strings is abstracted by fmtQ. -/

/-- Abstraction of Python float formatting used in f-strings (rounding such
as :.2f is not modelled; no claim depends on these strings). -/
def fmtQ (q : ℚ) : String := toString q

/-- The days_since_sale computation appearing (three times) inside
get_recommendations: 999 for a candidate without a sale date, otherwise
calculate_days_since, i.e. whole days between now and the sale date. -/
def days_since_sale_or_999 (now : ℤ) (p : Property) : ℤ :=
  match p.sale_date with
  | some d => now - d
  | none => 999

/-- The condition_values dict literal of _calculate_adjustments, with its
.get default 0. -/
def condition_values (s : String) : ℚ :=
  if s = "Poor" then -10000
  else if s = "Fair" then -5000
  else if s = "Average" then 0
  else if s = "Good" then 5000
  else if s = "Excellent" then 10000
  else 0

/-- PropertyRecommendationEngine._calculate_adjustments. -/
def calculate_adjustments (dist : ℚ → ℚ → ℚ → ℚ → ℚ) (now : ℤ)
    (subject : SubjectProperty) (comp : Property) : Adjustments :=
  let gla_adjustment := (comp.gla - subject.gla) * 50
  let lot_size_adjustment := (comp.lot_size - subject.lot_size) * 5
  let condition_adjustment :=
    condition_values comp.condition - condition_values subject.condition
  let distance := dist subject.latitude subject.longitude comp.latitude comp.longitude
  let location_adjustment := if distance > 1 then -2000 * (distance - 1) else 0
  let time_adjustment :=
    match comp.sale_date with
    | some d =>
        let days_since_sale := now - d
        if days_since_sale > 90 then -3000 * (((days_since_sale : ℚ) - 90) / 30) else 0
    | none => 0
  { gla_adjustment, lot_size_adjustment, condition_adjustment,
    location_adjustment, time_adjustment }

/-- PropertyRecommendationEngine._generate_explanations (the score argument
is accepted and unused, as in the source). -/
def generate_explanations (dist : ℚ → ℚ → ℚ → ℚ → ℚ) (now : ℤ)
    (subject : SubjectProperty) (comp : Property) (_score : ℚ) : List Explanation :=
  let distance := dist subject.latitude subject.longitude comp.latitude comp.longitude
  let days_since_sale := days_since_sale_or_999 now comp
  let gla_diff := |comp.gla - subject.gla|
  let gla_contribution :=
    if subject.gla > 0 then max 0 ((1 - gla_diff / subject.gla) * 30) else 0
  let location_contribution := max 0 ((2 - distance) / 2 * 25)
  let recency_contribution :=
    if days_since_sale ≤ 90 then max 0 ((90 - (days_since_sale : ℚ)) / 90 * 20) else 0
  let type_contribution : ℚ := if comp.property_type = subject.property_type then 15 else 0
  let lot_diff := |comp.lot_size - subject.lot_size|
  let lot_contribution :=
    if subject.lot_size > 0 then max 0 ((1 - lot_diff / subject.lot_size) * 10) else 0
  [{ factor := "GLA Similarity",
     description := fmtQ gla_diff ++ " sq ft difference",
     weight := 0.3, contribution := gla_contribution },
   { factor := "Location Proximity",
     description := fmtQ distance ++ " miles away",
     weight := 0.25, contribution := location_contribution },
   { factor := "Sale Recency",
     description := "Sold " ++ toString days_since_sale ++ " days ago",
     weight := 0.2, contribution := recency_contribution },
   { factor := "Property Type Match",
     description := if comp.property_type = subject.property_type
       then "Exact match" else "Different type",
     weight := 0.15, contribution := type_contribution },
   { factor := "Lot Size Similarity",
     description := fmtQ lot_diff ++ " sq ft difference",
     weight := 0.1, contribution := lot_contribution }]

/-- The filter predicate of get_recommendations: a candidate survives iff
its distance from the subject is at most max_distance and its
days-since-sale (999 without a sale date) is at most max_days_since_sale. -/
def passes_filters (dist : ℚ → ℚ → ℚ → ℚ → ℚ) (now : ℤ) (subject : SubjectProperty)
    (max_distance : ℚ) (max_days_since_sale : ℤ) (p : Property) : Bool :=
  decide (dist subject.latitude subject.longitude p.latitude p.longitude ≤ max_distance) &&
    decide (days_since_sale_or_999 now p ≤ max_days_since_sale)

/-- The scoring loop body of get_recommendations: similarity score,
distance, recency, adjustments, overall score, explanations and reasoning
for one surviving candidate (rank 0 pending sorting). -/
def score_candidate (dist : ℚ → ℚ → ℚ → ℚ → ℚ) (now : ℤ)
    (subject : SubjectProperty) (p : Property) : CompRecommendation :=
  let similarity_score := calculate_similarity_score subject p
  let distance := dist subject.latitude subject.longitude p.latitude p.longitude
  let days_since_sale := days_since_sale_or_999 now p
  let adjustments := calculate_adjustments dist now subject p
  let comp_property : CompProperty :=
    { base := p, similarity_score, distance_from_subject := distance,
      days_since_sale := if days_since_sale < 999 then some days_since_sale else none,
      adjustments }
  let overall_score := similarity_score - distance * 5 - (days_since_sale : ℚ) * 0.1
  let explanations := generate_explanations dist now subject p overall_score
  let reasoning := "This property is a " ++ fmtQ similarity_score ++
    "% match based on similar living area (" ++ fmtQ p.gla ++ " vs " ++ fmtQ subject.gla ++
    " sq ft), proximity (" ++ fmtQ distance ++ " miles), and recent sale date (" ++
    toString days_since_sale ++ " days ago)."
  { property := comp_property, rank := 0, overall_score, explanations, reasoning }

/-- The comparison handed to the stable sort: Python
sort(key=overall_score, reverse=True) keeps a before b iff the score of b
does not exceed the score of a, ties retaining input order. -/
def recLE (a b : CompRecommendation) : Bool :=
  decide (b.overall_score ≤ a.overall_score)

/-- The rank-assignment loop after truncation: element i receives rank
i + 1. -/
def assign_ranks_from (i : ℕ) : List CompRecommendation → List CompRecommendation
  | [] => []
  | r :: rest => { r with rank := (i : ℤ) + 1 } :: assign_ranks_from (i + 1) rest

/-- PropertyRecommendationEngine.get_recommendations: filter, score, stable
descending sort by overall score, truncate to top_k, assign dense 1-based
ranks.  The source raises no exception on this path, so the result is
always Except.ok. -/
def get_recommendations (dist : ℚ → ℚ → ℚ → ℚ → ℚ) (now : ℤ)
    (subject : SubjectProperty) (candidates : List Property)
    (max_distance : ℚ) (max_days_since_sale : ℤ) (top_k : ℤ) :
    Except String (List CompRecommendation) :=
  let filtered_candidates :=
    candidates.filter (passes_filters dist now subject max_distance max_days_since_sale)
  if filtered_candidates.isEmpty then .ok []
  else
    let recommendations := filtered_candidates.map (score_candidate dist now subject)
    let sorted := recommendations.mergeSort recLE
    .ok (assign_ranks_from 0 (pySlice top_k sorted))

/-! ## Helper lemmas about the sorting and ranking steps -/

theorem recLE_trans (a b c : CompRecommendation)
    (h1 : recLE a b = true) (h2 : recLE b c = true) : recLE a c = true := by
  simp only [recLE, decide_eq_true_eq] at *
  exact le_trans h2 h1

theorem recLE_total (a b : CompRecommendation) : (recLE a b || recLE b a) = true := by
  simpa [recLE] using le_total b.overall_score a.overall_score

theorem assign_ranks_from_length (i : ℕ) (l : List CompRecommendation) :
    (assign_ranks_from i l).length = l.length := by
  induction l generalizing i with
  | nil => rfl
  | cons r rest ih => simp [assign_ranks_from, ih]

theorem assign_ranks_from_rank (i : ℕ) (l : List CompRecommendation) (j : ℕ)
    (h : j < (assign_ranks_from i l).length) :
    ((assign_ranks_from i l).get ⟨j, h⟩).rank = (i : ℤ) + j + 1 := by
  induction l generalizing i j with
  | nil => simp [assign_ranks_from] at h
  | cons r rest ih =>
    cases j with
    | zero => simp [assign_ranks_from]
    | succ j' =>
      have := ih (i + 1) j' (by simpa [assign_ranks_from, assign_ranks_from_length,
        Nat.succ_lt_succ_iff] using h)
      simp only [assign_ranks_from, List.get_cons_succ] at *
      rw [this]
      push_cast
      ring

theorem assign_ranks_from_map_score (i : ℕ) (l : List CompRecommendation) :
    (assign_ranks_from i l).map (fun r => r.overall_score) =
      l.map (fun r => r.overall_score) := by
  induction l generalizing i with
  | nil => rfl
  | cons r rest ih => simp [assign_ranks_from, ih]

theorem pySlice_eq_take (k : ℤ) (l : List α) : ∃ n, pySlice k l = l.take n := by
  unfold pySlice
  split
  · exact ⟨k.toNat, rfl⟩
  · exact ⟨l.length - (-k).toNat, rfl⟩

theorem pySlice_of_nonneg (k : ℤ) (hk : 0 ≤ k) (l : List α) :
    pySlice k l = l.take k.toNat := by
  simp [pySlice, hk]

/-! ## Theorems for claims C3, C4 and C8 -/

/-- C3: a candidate is scored by get_recommendations (survives filtering)
iff its distance from the subject is at most max_distance and its
days-since-sale (999 when it has no sale date) is at most
max_days_since_sale; and when no candidate survives the result is the
empty list, not an error. -/
theorem get_recommendations_filter_iff (dist : ℚ → ℚ → ℚ → ℚ → ℚ) (now : ℤ)
    (subject : SubjectProperty) (candidates : List Property)
    (max_distance : ℚ) (max_days_since_sale : ℤ) (top_k : ℤ) :
    (∀ c, c ∈ candidates.filter
        (passes_filters dist now subject max_distance max_days_since_sale) ↔
      (c ∈ candidates ∧
        dist subject.latitude subject.longitude c.latitude c.longitude ≤ max_distance ∧
        days_since_sale_or_999 now c ≤ max_days_since_sale)) ∧
    (candidates.filter (passes_filters dist now subject max_distance max_days_since_sale)
        = [] →
      get_recommendations dist now subject candidates
        max_distance max_days_since_sale top_k = .ok []) := by
  constructor
  · intro c
    simp [List.mem_filter, passes_filters, and_assoc]
  · intro h
    unfold get_recommendations
    simp [h]

/-- Witness for C3: a candidate with no sale date carries the 999 default,
fails a 500-day recency bound although it passes the distance bound, and
the pipeline returns the empty list rather than an error. -/
theorem get_recommendations_filter_iff_witness :
    get_recommendations (fun _ _ _ _ => 0) 20000
      { id := "S", address := "1 Main St", structure_type := "Detached",
        property_type := "Detached", condition := "Average", quality := "Average",
        gla := 2000, lot_size := 5000, bedrooms := 3, bathrooms := 2,
        year_built := 2000, latitude := 44.23, longitude := -76.48,
        estimated_value := some 400000 }
      [{ id := "C", address := "2 Elm St", structure_type := "Detached",
         property_type := "Detached", condition := "Average", quality := "Average",
         gla := 1900, lot_size := 4800, bedrooms := 3, bathrooms := 2,
         year_built := 1998, latitude := 44.23, longitude := -76.48,
         sale_date := none, sale_price := some 380000 }] 5 500 3 = .ok [] :=
  (get_recommendations_filter_iff _ _ _ _ _ _ _).2 (by decide)

/-- C4: for a non-negative top_k, the list returned by get_recommendations
is sorted in non-increasing order of overall score, ties among scored
candidates are broken by input order (the sort is stable), the length is
at most min(top_k, number of surviving candidates), and the element at
position j (0-based) carries rank j + 1. -/
theorem get_recommendations_ranking (dist : ℚ → ℚ → ℚ → ℚ → ℚ) (now : ℤ)
    (subject : SubjectProperty) (candidates : List Property)
    (max_distance : ℚ) (max_days_since_sale : ℤ) (top_k : ℤ) (htk : 0 ≤ top_k)
    (recs : List CompRecommendation)
    (h : get_recommendations dist now subject candidates
      max_distance max_days_since_sale top_k = .ok recs) :
    recs.Pairwise (fun a b => b.overall_score ≤ a.overall_score) ∧
    recs.length ≤ min top_k.toNat
      (candidates.filter (passes_filters dist now subject
        max_distance max_days_since_sale)).length ∧
    (∀ j (hj : j < recs.length), (recs.get ⟨j, hj⟩).rank = (j : ℤ) + 1) ∧
    (∀ a b, List.Sublist [a, b] ((candidates.filter (passes_filters dist now subject
        max_distance max_days_since_sale)).map (score_candidate dist now subject)) →
      a.overall_score = b.overall_score →
      List.Sublist [a, b] (((candidates.filter (passes_filters dist now subject
        max_distance max_days_since_sale)).map
          (score_candidate dist now subject)).mergeSort recLE)) := by
  have stable : ∀ a b : CompRecommendation,
      List.Sublist [a, b] ((candidates.filter (passes_filters dist now subject
        max_distance max_days_since_sale)).map (score_candidate dist now subject)) →
      a.overall_score = b.overall_score →
      List.Sublist [a, b] (((candidates.filter (passes_filters dist now subject
        max_distance max_days_since_sale)).map
          (score_candidate dist now subject)).mergeSort recLE) := by
    intro a b hsub htie
    exact List.pair_sublist_mergeSort recLE_trans recLE_total
      (by simp [recLE, htie]) hsub
  unfold get_recommendations at h
  by_cases hemp : (candidates.filter (passes_filters dist now subject
      max_distance max_days_since_sale)).isEmpty
  · simp only [hemp, if_true] at h
    have hrecs : recs = [] := by
      cases h
      rfl
    subst hrecs
    refine ⟨List.Pairwise.nil, by simp, by simp, stable⟩
  · simp only [hemp, if_false, Bool.false_eq_true] at h
    have hrecs : recs = assign_ranks_from 0 (pySlice top_k
        (((candidates.filter (passes_filters dist now subject
          max_distance max_days_since_sale)).map
            (score_candidate dist now subject)).mergeSort recLE)) := by
      cases h
      rfl
    subst hrecs
    set L := ((candidates.filter (passes_filters dist now subject
      max_distance max_days_since_sale)).map
        (score_candidate dist now subject)).mergeSort recLE with hL
    have hsorted : L.Pairwise (fun a b => b.overall_score ≤ a.overall_score) :=
      (List.sorted_mergeSort recLE_trans recLE_total _).imp
        (fun hab => by simpa [recLE] using hab)
    obtain ⟨n, hn⟩ := pySlice_eq_take top_k L
    have htake : (pySlice top_k L).Pairwise
        (fun a b => b.overall_score ≤ a.overall_score) :=
      hn ▸ List.Pairwise.sublist (List.take_sublist n L) hsorted
    refine ⟨?_, ?_, ?_, stable⟩
    · have hmap : ((assign_ranks_from 0 (pySlice top_k L)).map
          (fun r => r.overall_score)).Pairwise (fun x y : ℚ => y ≤ x) := by
        rw [assign_ranks_from_map_score]
        exact List.pairwise_map.mpr htake
      exact List.pairwise_map.mp hmap
    · rw [assign_ranks_from_length, pySlice_of_nonneg _ htk, List.length_take]
      simp [hL]
    · intro j hj
      rw [assign_ranks_from_rank]
      omega

/-- A concrete sold candidate used by the ranking witness. -/
def sold_candidate : Property :=
  { id := "C1", address := "2 Elm St", structure_type := "Detached",
    property_type := "Detached", condition := "Average", quality := "Average",
    gla := 1900, lot_size := 4800, bedrooms := 3, bathrooms := 2,
    year_built := 1998, latitude := 44.23, longitude := -76.48,
    sale_date := some 19990, sale_price := some 380000 }

/-- A concrete subject used by the ranking witness. -/
def sample_subject : SubjectProperty :=
  { id := "S", address := "1 Main St", structure_type := "Detached",
    property_type := "Detached", condition := "Average", quality := "Average",
    gla := 2000, lot_size := 5000, bedrooms := 3, bathrooms := 2,
    year_built := 2000, latitude := 44.23, longitude := -76.48,
    estimated_value := some 400000 }

/-- Witness for C4: on a concrete call the result list is sorted by
non-increasing overall score and its length respects the top-k bound. -/
theorem get_recommendations_ranking_witness :
    ∃ recs, get_recommendations (fun _ _ _ _ => 0) 20000
        sample_subject [sold_candidate] 10 2000 3 = .ok recs ∧
      recs.Pairwise (fun a b => b.overall_score ≤ a.overall_score) ∧
      recs.length ≤ min ((3 : ℤ).toNat)
        (([sold_candidate]).filter (passes_filters (fun _ _ _ _ => 0) 20000
          sample_subject 10 2000)).length := by
  obtain ⟨recs, hok⟩ : ∃ recs, get_recommendations (fun _ _ _ _ => 0) 20000
      sample_subject [sold_candidate] 10 2000 3 = .ok recs := ⟨_, rfl⟩
  exact ⟨recs, hok,
    (get_recommendations_ranking _ _ _ _ _ _ _ (by decide) recs hok).1,
    (get_recommendations_ranking _ _ _ _ _ _ _ (by decide) recs hok).2.1⟩

/-- Counterexample for C8: the claim that non-positive caller bounds are
rejected as a caller error is false.  A call with max_distance = -1
proceeds and returns Except.ok [] (everything filtered out, no error), and
a call with top_k = 0 proceeds through scoring and silently truncates to
the empty list. -/
theorem get_recommendations_nonpositive_not_rejected :
    get_recommendations (fun _ _ _ _ => 0) 20000
      sample_subject [sold_candidate] (-1) 90 3 = .ok [] ∧
    get_recommendations (fun _ _ _ _ => 0) 20000
      sample_subject [sold_candidate] 10 2000 0 = .ok [] := by
  constructor <;> rfl

/-- C8 (amended): get_recommendations performs no validation of its numeric
caller inputs: every call returns Except.ok (never an error), and — for a
non-negative distance function — a negative max_distance merely filters
out every candidate, yielding Except.ok []. -/
theorem get_recommendations_never_rejects (dist : ℚ → ℚ → ℚ → ℚ → ℚ) (now : ℤ)
    (subject : SubjectProperty) (candidates : List Property)
    (max_distance : ℚ) (max_days_since_sale : ℤ) (top_k : ℤ) :
    (∃ l, get_recommendations dist now subject candidates
      max_distance max_days_since_sale top_k = .ok l) ∧
    ((∀ a b c d, 0 ≤ dist a b c d) → max_distance < 0 →
      get_recommendations dist now subject candidates
        max_distance max_days_since_sale top_k = .ok []) := by
  constructor
  · unfold get_recommendations
    by_cases hemp : (candidates.filter
        (passes_filters dist now subject max_distance max_days_since_sale)).isEmpty
    · exact ⟨[], by simp [hemp]⟩
    · exact ⟨assign_ranks_from 0 (pySlice top_k
        (((candidates.filter (passes_filters dist now subject
            max_distance max_days_since_sale)).map
          (score_candidate dist now subject)).mergeSort recLE)), by simp [hemp]⟩
  · intro hd hmd
    have hfil : candidates.filter
        (passes_filters dist now subject max_distance max_days_since_sale) = [] := by
      rw [List.filter_eq_nil_iff]
      intro c _
      simp only [passes_filters, Bool.and_eq_true, decide_eq_true_eq, not_and]
      intro hle
      exact absurd (le_trans (hd _ _ _ _) hle) (not_le.mpr hmd)
    unfold get_recommendations
    simp [hfil]

/-- Witness for C8 (amended): a concrete ordinary call succeeds, and a
concrete call with negative max_distance returns the empty list without
an error. -/
theorem get_recommendations_never_rejects_witness :
    (∃ l, get_recommendations (fun _ _ _ _ => 0) 20000
      sample_subject [sold_candidate] 5 90 3 = .ok l) ∧
    get_recommendations (fun _ _ _ _ => 0) 20000
      sample_subject [sold_candidate] (-7) 90 3 = .ok [] :=
  ⟨(get_recommendations_never_rejects _ _ _ _ _ _ _).1,
    (get_recommendations_never_rejects _ _ _ _ _ _ _).2
      (fun _ _ _ _ => le_refl 0) (by norm_num)⟩

/-! ## Single-property feature extractors
(backend/app/ml/embedding_generator.py and
backend/app/ml/fast_recommendation_engine.py)

Two more feature-extraction routines exist in the code base: the offline
embedding generator extracts a 16-entry vector per property, and the fast
query engine extracts a 13-entry vector for the subject (its docstring
says: same as embedding generator).  The except branches of both (zeros of
the respective fixed length) are unreachable in the embedding because the
translated bodies are total. -/

/-- LightweightEmbeddingGenerator.extract_ml_features_single: the 16-entry
single-property embedding used when building the offline index. -/
def extract_ml_features_single (property_data : PropD) : List ℚ :=
  [property_data.sale_price.getD 0 / 1000,
   property_data.gla.getD 0,
   property_data.lot_size.getD 0,
   property_data.bedrooms.getD 0,
   property_data.bathrooms.getD 0,
   property_data.year_built.getD 1990,
   property_data.garage_spaces.getD 0,
   if property_data.structure_type = some "Detached" then 1 else 0,
   if property_data.structure_type = some "Attached" then 1 else 0,
   if property_data.structure_type = some "Semi-Detached" then 1 else 0,
   property_data.latitude.getD 0,
   property_data.longitude.getD 0,
   property_data.sale_price.getD 0 / max (property_data.gla.getD 1) 1,
   2024 - property_data.year_built.getD 1990,
   property_data.bedrooms.getD 0 + property_data.bathrooms.getD 0,
   if property_data.sale_price.getD 0 > 300000 then 1 else 0]

/-- FastRecommendationEngine.extract_property_features: the 13-entry
subject-property vector of the online query path.  current_year models
datetime.now().year. -/
def extract_property_features (current_year : ℚ) (property_data : PropD) : List ℚ :=
  let gla := property_data.gla.getD 0
  let lot_size := property_data.lot_size.getD 0
  let bedrooms := property_data.bedrooms.getD 0
  let bathrooms := property_data.bathrooms.getD 1
  let year_built := property_data.year_built.getD 1980
  let latitude := property_data.latitude.getD 44.2312
  let longitude := property_data.longitude.getD (-76.4860)
  let property_type := property_data.property_type.getD "Detached"
  let type_encoding : ℚ := if property_type = "Detached" then 1 else 0
  let condition := condition_map (property_data.condition.getD "Average")
  let quality := condition_map (property_data.quality.getD "Average")
  let sale_price := property_data.estimated_value.getD 0
  let age := max 0 (current_year - year_built)
  let price_per_sqft : ℚ := if gla > 0 then sale_price / max gla 1 else 0
  [gla, lot_size, bedrooms, bathrooms, year_built,
   latitude, longitude, type_encoding, condition,
   quality, sale_price, age, price_per_sqft]

/-- C5 (the code violates it): the pairwise extractor of the enhanced
engine and the offline embedding generator both produce 16 entries, but
the online query path's extractor produces 13 entries — the three call
sites do not share one feature convention, although the fast extractor's
docstring claims it matches the embedding generator. -/
theorem feature_extraction_dimensions_mismatch (sqrtQ : ℚ → ℚ) (current_year : ℚ)
    (s c p : PropD) :
    (extract_features sqrtQ s c).length = 16 ∧
    (extract_ml_features_single p).length = 16 ∧
    (extract_property_features current_year p).length = 13 ∧
    (extract_property_features current_year p).length ≠
      (extract_ml_features_single p).length := by
  have h1 : (extract_features sqrtQ s c).length = 16 := by
    unfold extract_features
    cases hs : c.sale_date <;> cases ha : s.appraisal_date <;> simp [hs, ha]
  have h2 : (extract_ml_features_single p).length = 16 := rfl
  have h3 : (extract_property_features current_year p).length = 13 := rfl
  exact ⟨h1, h2, h3, by rw [h2, h3]; decide⟩

/-! ## Lightweight vector search
(backend/app/ml/lightweight_vector_search.py)

Cosine similarity over the stored embedding matrix is an external numeric
routine (it divides by vector norms, hence irrational); it enters the
embedding as the parameter cos applied to the query and each stored row.
numpy argsort and argpartition leave the relative order of equal
similarities unspecified (introsort); the embedding fixes ties by
ascending index, uniformly for both, which is one realization of the
numpy contract. -/

structure SearchResult where
  property : PropD
  similarity_score : ℚ
  rank : ℕ
  property_index : ℕ
  similarity_raw : ℚ
deriving DecidableEq, Repr

structure LightweightVectorSearch where
  property_embeddings : List (List ℚ)
  property_metadata : List PropD
  is_initialized : Bool

/-- Descending order on indices into the similarity vector, ties broken by
ascending index: index i may come before index j iff i has the larger
similarity, or equal similarity and i ≤ j. -/
def idxLE (sims : List ℚ) (i j : ℕ) : Bool :=
  decide (sims.getD j 0 < sims.getD i 0) ||
    (decide (sims.getD i 0 = sims.getD j 0) && decide (i ≤ j))

/-- Index j strictly precedes index i in the descending order: strictly
larger similarity, or equal similarity and strictly smaller index. -/
def idxBefore (sims : List ℚ) (j i : ℕ) : Bool :=
  decide (sims.getD i 0 < sims.getD j 0) ||
    (decide (sims.getD j 0 = sims.getD i 0) && decide (j < i))

/-- np.argsort(similarities)[::-1]: every index, in descending similarity
order. -/
def argsort_desc (sims : List ℚ) : List ℕ :=
  (List.range sims.length).mergeSort (idxLE sims)

/-- np.argpartition(similarities, -top_k)[-top_k:]: the top_k indices of
largest similarity, in unspecified order (the model keeps them in index
order): an index is selected iff fewer than top_k indices strictly precede
it. -/
def argpartition_top (sims : List ℚ) (top_k : ℕ) : List ℕ :=
  (List.range sims.length).filter (fun i =>
    ((List.range sims.length).filter (fun j => idxBefore sims j i)).length < top_k)

/-- The result-building loop of search_similar_properties: enumerate the
selected indices, keep those whose raw similarity clears the 1% floor,
attaching metadata, the percentage score and the 1-based rank. -/
def build_search_results (sims : List ℚ) (metadata : List PropD)
    (top_indices : List ℕ) : List SearchResult :=
  top_indices.enum.filterMap (fun ri =>
    let similarity_score := sims.getD ri.2 0
    if similarity_score > 0.01 then
      some { property := metadata.getD ri.2 {},
             similarity_score := similarity_score * 100,
             rank := ri.1 + 1,
             property_index := ri.2,
             similarity_raw := similarity_score }
    else none)

/-- LightweightVectorSearch.search_similar_properties: hard not-ready error
when uninitialized; otherwise one vectorized similarity pass, top-k
selection (full descending argsort when top_k covers everything, otherwise
argpartition followed by a sort of only the k survivors), the 1% floor,
and truncation to top_k. -/
def search_similar_properties (cos : List ℚ → List ℚ → ℚ)
    (st : LightweightVectorSearch) (query_vector : List ℚ) (top_k : ℕ) :
    Except String (List SearchResult) :=
  if st.is_initialized = false then
    .error "Vector search not initialized. Call initialize() first."
  else
    let similarities := st.property_embeddings.map (cos query_vector)
    let top_indices :=
      if top_k ≥ similarities.length then argsort_desc similarities
      else (argpartition_top similarities top_k).mergeSort (idxLE similarities)
    .ok ((build_search_results similarities st.property_metadata top_indices).take top_k)

/-- Modelled from the spec words, for the refinement comparison of C6: the
same search but selecting top-k by a full descending sort of all N
similarities truncated to top_k. -/
def search_full_sort_truncate (cos : List ℚ → List ℚ → ℚ)
    (st : LightweightVectorSearch) (query_vector : List ℚ) (top_k : ℕ) :
    Except String (List SearchResult) :=
  if st.is_initialized = false then
    .error "Vector search not initialized. Call initialize() first."
  else
    let similarities := st.property_embeddings.map (cos query_vector)
    let top_indices := (argsort_desc similarities).take top_k
    .ok ((build_search_results similarities st.property_metadata top_indices).take top_k)

/-! ## Fast engine (backend/app/ml/fast_recommendation_engine.py)

The trained model, scaler and FAISS index are opaque loaded artifacts:
model_embed abstracts scaler.transform / model.apply / L2-normalization in
encode_subject_property, and faiss_search abstracts the FAISS index search
returning (similarity, index) pairs, index -1 marking an invalid slot. -/

structure FastCandidate where
  property : PropD
  similarity_score : ℚ
  distance_from_subject : ℚ
  days_since_sale : ℤ
deriving DecidableEq, Repr

structure FastEngine where
  is_loaded : Bool
  property_metadata : List PropD
  faiss_search : List ℚ → ℕ → List (ℚ × ℤ)
  model_embed : List ℚ → List ℚ

/-- FastRecommendationEngine.days_since_sale: whole days between now and
the sale date, 365 when the date is absent or unparsable. -/
def fast_days_since_sale (now : ℤ) (sale_date : Option ℤ) : ℤ :=
  match sale_date with
  | some d => now - d
  | none => 365

/-- The candidate-filtering loop of get_fast_recommendations: skip invalid
FAISS slots, keep candidates within the distance and recency bounds, and
break as soon as num candidates are collected. -/
def fast_filter_loop (dist : ℚ → ℚ → ℚ → ℚ → ℚ) (now : ℤ) (metadata : List PropD)
    (subject_lat subject_lon max_distance : ℚ) (max_days : ℤ) (num : ℕ) :
    List (ℚ × ℤ) → List FastCandidate → List FastCandidate
  | [], acc => acc
  | (similarity_score, property_idx) :: rest, acc =>
    if property_idx = -1 then
      fast_filter_loop dist now metadata subject_lat subject_lon
        max_distance max_days num rest acc
    else
      let candidate := metadata.getD property_idx.toNat {}
      let distance := dist subject_lat subject_lon
        (candidate.latitude.getD 0) (candidate.longitude.getD 0)
      let days_since := fast_days_since_sale now candidate.sale_date
      let acc' := if distance ≤ max_distance ∧ days_since ≤ max_days then
          acc ++ [{ property := candidate,
                    similarity_score := similarity_score * 100,
                    distance_from_subject := distance,
                    days_since_sale := days_since }]
        else acc
      if num ≤ acc'.length then acc'
      else fast_filter_loop dist now metadata subject_lat subject_lon
        max_distance max_days num rest acc'

structure FastResponse where
  recommendations : List FastCandidate
  total_properties_searched : ℕ
  candidates_evaluated : ℕ
deriving DecidableEq, Repr

/-- FastRecommendationEngine.get_fast_recommendations: hard not-ready error
when the components are not loaded; otherwise encode the subject, search
the index for up to min(100, N) candidates, filter geographically and
temporally with early exit, and return at most num_recommendations. -/
def get_fast_recommendations (dist : ℚ → ℚ → ℚ → ℚ → ℚ) (now : ℤ)
    (current_year : ℚ) (eng : FastEngine) (subject_property : PropD)
    (max_distance : ℚ) (max_days_since_sale : ℤ) (num_recommendations : ℕ) :
    Except String FastResponse :=
  if eng.is_loaded = false then
    .error "Fast engine not loaded. Call load_all_components() first"
  else
    let subject_embedding :=
      eng.model_embed (extract_property_features current_year subject_property)
    let search_k := min 100 eng.property_metadata.length
    let pairs := eng.faiss_search subject_embedding search_k
    let subject_lat := subject_property.latitude.getD 44.2312
    let subject_lon := subject_property.longitude.getD (-76.4860)
    let filtered_candidates := fast_filter_loop dist now eng.property_metadata
      subject_lat subject_lon max_distance max_days_since_sale
      num_recommendations pairs []
    .ok { recommendations := filtered_candidates.take num_recommendations,
          total_properties_searched := eng.property_metadata.length,
          candidates_evaluated := search_k }

/-! ## Order facts about the index comparisons -/

theorem idxLE_trans (sims : List ℚ) (a b c : ℕ)
    (h1 : idxLE sims a b = true) (h2 : idxLE sims b c = true) :
    idxLE sims a c = true := by
  simp only [idxLE, Bool.or_eq_true, Bool.and_eq_true, decide_eq_true_eq] at *
  rcases h1 with h1 | ⟨h1e, h1i⟩ <;> rcases h2 with h2 | ⟨h2e, h2i⟩
  · exact Or.inl (lt_trans h2 h1)
  · exact Or.inl (h2e ▸ h1)
  · exact Or.inl (h1e ▸ h2)
  · exact Or.inr ⟨h1e.trans h2e, le_trans h1i h2i⟩

theorem idxLE_total (sims : List ℚ) (a b : ℕ) :
    (idxLE sims a b || idxLE sims b a) = true := by
  simp only [idxLE, Bool.or_eq_true, Bool.and_eq_true, decide_eq_true_eq]
  rcases lt_trichotomy (sims.getD a 0) (sims.getD b 0) with h | h | h
  · exact Or.inr (Or.inl h)
  · rcases le_total a b with hab | hab
    · exact Or.inl (Or.inr ⟨h, hab⟩)
    · exact Or.inr (Or.inr ⟨h.symm, hab⟩)
  · exact Or.inl (Or.inl h)

theorem idxLE_antisymm (sims : List ℚ) (a b : ℕ)
    (h1 : idxLE sims a b = true) (h2 : idxLE sims b a = true) : a = b := by
  simp only [idxLE, Bool.or_eq_true, Bool.and_eq_true, decide_eq_true_eq] at *
  rcases h1 with h1 | ⟨h1e, h1i⟩ <;> rcases h2 with h2 | ⟨h2e, h2i⟩
  · exact absurd (lt_trans h1 h2) (lt_irrefl _)
  · exact absurd (h2e ▸ h1) (lt_irrefl _)
  · exact absurd (h1e ▸ h2) (lt_irrefl _)
  · exact le_antisymm h1i h2i

theorem idxBefore_iff (sims : List ℚ) (j i : ℕ) :
    idxBefore sims j i = true ↔ (idxLE sims j i = true ∧ j ≠ i) := by
  simp only [idxBefore, idxLE, Bool.or_eq_true, Bool.and_eq_true, decide_eq_true_eq]
  constructor
  · rintro (h | ⟨he, hj⟩)
    · refine ⟨Or.inl h, fun hji => ?_⟩
      subst hji
      exact lt_irrefl _ h
    · exact ⟨Or.inr ⟨he, le_of_lt hj⟩, Nat.ne_of_lt hj⟩
  · rintro ⟨h | ⟨he, hle⟩, hne⟩
    · exact Or.inl h
    · exact Or.inr ⟨he, lt_of_le_of_ne hle hne⟩

theorem idxBefore_irrefl (sims : List ℚ) (i : ℕ) : idxBefore sims i i = false := by
  simp [idxBefore]

theorem idxBefore_asymm (sims : List ℚ) (j i : ℕ)
    (h : idxBefore sims j i = true) : idxBefore sims i j = false := by
  by_contra hc
  have h2 : idxBefore sims i j = true := by
    cases hv : idxBefore sims i j
    · exact absurd hv hc
    · rfl
  obtain ⟨hle1, hne1⟩ := (idxBefore_iff sims j i).mp h
  obtain ⟨hle2, _⟩ := (idxBefore_iff sims i j).mp h2
  exact hne1 (idxLE_antisymm sims j i hle1 hle2)

/-- In a list sorted by the descending index order and free of duplicates,
an index lies in the first k positions iff fewer than k members of the
list strictly precede it. -/
theorem sorted_mem_take_iff (sims : List ℚ) :
    ∀ (S : List ℕ), S.Pairwise (fun a b => idxLE sims a b = true) → S.Nodup →
      ∀ (k i : ℕ), i ∈ S.take k ↔
        (i ∈ S ∧ S.countP (fun j => idxBefore sims j i) < k) := by
  intro S
  induction S with
  | nil => intro _ _ k i; simp
  | cons x T ih =>
    intro hp hnd k i
    have hpT : T.Pairwise (fun a b => idxLE sims a b = true) := hp.of_cons
    have hxT : x ∉ T := (List.nodup_cons.mp hnd).1
    have hndT : T.Nodup := (List.nodup_cons.mp hnd).2
    cases k with
    | zero => simp
    | succ m =>
      rw [List.take_succ_cons, List.countP_cons]
      by_cases hix : i = x
      · subst hix
        have hzero : T.countP (fun j => idxBefore sims j i) = 0 := by
          rw [List.countP_eq_zero]
          intro j hj
          have hle : idxLE sims i j = true := (List.pairwise_cons.mp hp).1 j hj
          have hne : i ≠ j := fun he => hxT (he ▸ hj)
          have hij : idxBefore sims i j = true := (idxBefore_iff sims i j).mpr ⟨hle, hne⟩
          simp [idxBefore_asymm sims i j hij]
        simp [hzero, idxBefore_irrefl]
      · have hIH := ih hpT hndT m i
        by_cases hiT : i ∈ T
        · have hxi : idxBefore sims x i = true := (idxBefore_iff sims x i).mpr
            ⟨(List.pairwise_cons.mp hp).1 i hiT, fun he => hix he.symm⟩
          simp only [List.mem_cons, hix, false_or, hxi, if_pos, hiT, true_and]
          rw [hIH]
          simp [hiT, Nat.add_lt_add_iff_right]
        · have hnotake : i ∉ List.take m T := fun h => hiT (List.take_subset m T h)
          simp [hix, hiT, hnotake]

/-- The partition-then-sort selection equals the full descending sort
truncated to top_k: selecting the top_k indices with argpartition and then
sorting only those k survivors yields exactly the first k entries of the
full descending argsort. -/
theorem argpartition_sort_eq_argsort_take (sims : List ℚ) (top_k : ℕ) :
    (argpartition_top sims top_k).mergeSort (idxLE sims) =
      (argsort_desc sims).take top_k := by
  have hS_sorted : (argsort_desc sims).Pairwise (fun a b => idxLE sims a b = true) :=
    List.sorted_mergeSort (idxLE_trans sims) (idxLE_total sims) _
  have hS_perm : List.Perm (argsort_desc sims) (List.range sims.length) :=
    List.mergeSort_perm _ _
  have hS_nodup : (argsort_desc sims).Nodup :=
    hS_perm.nodup_iff.mpr (List.nodup_range _)
  have hpart_nodup : (argpartition_top sims top_k).Nodup :=
    (List.nodup_range _).filter _
  have htake_nodup : ((argsort_desc sims).take top_k).Nodup :=
    List.Nodup.sublist (List.take_sublist _ _) hS_nodup
  have hmem : ∀ i, i ∈ (argsort_desc sims).take top_k ↔
      i ∈ argpartition_top sims top_k := by
    intro i
    rw [sorted_mem_take_iff sims _ hS_sorted hS_nodup top_k i]
    unfold argpartition_top
    rw [List.mem_filter, hS_perm.countP_eq, List.countP_eq_length_filter]
    simp [hS_perm.mem_iff]
  have hperm : List.Perm ((argpartition_top sims top_k).mergeSort (idxLE sims))
      ((argsort_desc sims).take top_k) :=
    (List.mergeSort_perm _ _).trans
      ((List.perm_ext_iff_of_nodup hpart_nodup htake_nodup).mpr
        (fun a => (hmem a).symm))
  have hsorted1 : ((argpartition_top sims top_k).mergeSort (idxLE sims)).Pairwise
      (fun a b => idxLE sims a b = true) :=
    List.sorted_mergeSort (idxLE_trans sims) (idxLE_total sims) _
  have hsorted2 : ((argsort_desc sims).take top_k).Pairwise
      (fun a b => idxLE sims a b = true) :=
    List.Pairwise.sublist (List.take_sublist _ _) hS_sorted
  haveI : IsAntisymm ℕ (fun a b => idxLE sims a b = true) :=
    ⟨fun a b h1 h2 => idxLE_antisymm sims a b h1 h2⟩
  exact List.eq_of_perm_of_sorted hperm hsorted1 hsorted2

/-- Every result built by the search loop clears the 1% similarity
floor. -/
theorem build_search_results_floor (sims : List ℚ) (metadata : List PropD)
    (top_indices : List ℕ) (r : SearchResult)
    (h : r ∈ build_search_results sims metadata top_indices) :
    r.similarity_raw > 0.01 := by
  unfold build_search_results at h
  rw [List.mem_filterMap] at h
  obtain ⟨ri, _, hmk⟩ := h
  dsimp only at hmk
  by_cases hc : sims.getD ri.2 0 > 0.01
  · rw [if_pos hc] at hmk
    cases hmk
    exact hc
  · rw [if_neg hc] at hmk
    exact absurd hmk (by simp)

/-- C6: whenever top_k is smaller than the number of stored embeddings,
the partition-based selection branch of search_similar_properties returns
exactly what a full descending sort of all similarities truncated to top_k
would return (same properties, same order), every returned result clears
the 0.01 raw-similarity floor, and at most top_k results come back. -/
theorem search_partition_refines_full_sort (cos : List ℚ → List ℚ → ℚ)
    (st : LightweightVectorSearch) (query_vector : List ℚ) (top_k : ℕ)
    (hk : top_k < st.property_embeddings.length) :
    search_similar_properties cos st query_vector top_k =
      search_full_sort_truncate cos st query_vector top_k ∧
    (∀ results, search_similar_properties cos st query_vector top_k = .ok results →
      (∀ r ∈ results, r.similarity_raw > 0.01) ∧ results.length ≤ top_k) := by
  have hklen : ¬ (top_k ≥ (st.property_embeddings.map (cos query_vector)).length) := by
    rw [List.length_map]
    omega
  constructor
  · unfold search_similar_properties search_full_sort_truncate
    by_cases hinit : st.is_initialized = false
    · rw [if_pos hinit, if_pos hinit]
    · rw [if_neg hinit, if_neg hinit]
      dsimp only
      rw [if_neg hklen, argpartition_sort_eq_argsort_take]
  · intro results hres
    unfold search_similar_properties at hres
    by_cases hinit : st.is_initialized = false
    · rw [if_pos hinit] at hres
      exact absurd hres (by simp)
    · rw [if_neg hinit] at hres
      dsimp only at hres
      rw [if_neg hklen] at hres
      have hres' := Except.ok.inj hres
      constructor
      · intro r hr
        rw [← hres'] at hr
        exact build_search_results_floor _ _ _ r (List.take_subset _ _ hr)
      · rw [← hres']
        exact List.length_take_le _ _

/-- A small initialized search state for the refinement witness: three
stored one-dimensional embeddings. -/
def sample_search_state : LightweightVectorSearch :=
  { property_embeddings := [[1], [2], [3]],
    property_metadata := [{ id := some "p0" }, { id := some "p1" }, { id := some "p2" }],
    is_initialized := true }

/-- A concrete stand-in for cosine similarity used by the refinement
witness: score a stored row by its first entry. -/
def sample_cos : List ℚ → List ℚ → ℚ := fun _ row => row.getD 0 0

/-- Witness for C6: on the concrete three-row index with top_k = 2, the
partition branch agrees with the full-sort-truncate reference, every
result clears the floor and at most two results come back. -/
theorem search_partition_refines_full_sort_witness :
    (search_similar_properties sample_cos sample_search_state [1] 2 =
      search_full_sort_truncate sample_cos sample_search_state [1] 2) ∧
    ∃ results, search_similar_properties sample_cos sample_search_state [1] 2 =
        .ok results ∧
      (∀ r ∈ results, r.similarity_raw > 0.01) ∧ results.length ≤ 2 := by
  obtain ⟨results, hok⟩ : ∃ results,
      search_similar_properties sample_cos sample_search_state [1] 2 = .ok results :=
    ⟨_, rfl⟩
  exact ⟨(search_partition_refines_full_sort _ _ _ _ (by decide)).1, results, hok,
    (search_partition_refines_full_sort _ _ _ _ (by decide)).2 results hok⟩

/-- C7: a query against either vectorized index path before its components
are initialized fails with the explicit not-ready error of the source — it
raises instead of returning results, and no rule-based fallback exists on
these paths. -/
theorem uninitialized_index_queries_fail (cos : List ℚ → List ℚ → ℚ)
    (st : LightweightVectorSearch) (query_vector : List ℚ) (top_k : ℕ)
    (dist : ℚ → ℚ → ℚ → ℚ → ℚ) (now : ℤ) (current_year : ℚ) (feng : FastEngine)
    (subject_property : PropD) (max_distance : ℚ) (max_days_since_sale : ℤ)
    (num_recommendations : ℕ)
    (h1 : st.is_initialized = false) (h2 : feng.is_loaded = false) :
    search_similar_properties cos st query_vector top_k =
      .error "Vector search not initialized. Call initialize() first." ∧
    get_fast_recommendations dist now current_year feng subject_property
        max_distance max_days_since_sale num_recommendations =
      .error "Fast engine not loaded. Call load_all_components() first" := by
  constructor
  · unfold search_similar_properties
    rw [if_pos h1]
  · unfold get_fast_recommendations
    rw [if_pos h2]

/-- Witness for C7: concrete uninitialized engines receive exactly the two
not-ready errors. -/
theorem uninitialized_index_queries_fail_witness :
    search_similar_properties (fun _ _ => 0)
      { property_embeddings := [], property_metadata := [], is_initialized := false }
      [] 3 = .error "Vector search not initialized. Call initialize() first." ∧
    get_fast_recommendations (fun _ _ _ _ => 0) 20000 2026
      { is_loaded := false, property_metadata := [],
        faiss_search := fun _ _ => [], model_embed := fun v => v }
      {} 10 1095 3 =
      .error "Fast engine not loaded. Call load_all_components() first" :=
  uninitialized_index_queries_fail _ _ _ _ _ _ _ _ _ _ _ _ rfl rfl
